import Mathlib

/-
Shallow embedding of src/scripts/validate_config.py (the configuration
validation engine of gemini-repl-009).

Modelling conventions, chosen to mirror CPython semantics:
  * A parsed TOML document is a tree of dynamically typed values.  `Value`
    is the tagged union of the shapes that occur (string, int, float, bool,
    None, list, dict).  Floats are modelled as rationals (the validator
    only compares them against decimal literals).
  * Python `bool` is a subclass of `int`: `isinstance(True, int)` is True
    and `True == 1`.  `pyIsInt`/`toIntVal` reproduce this.
  * Python sets (VALID_MODELS, DANGEROUS_COMMANDS, ...) are modelled as
    lists in the order they are written in the source; the validator only
    uses membership and `", ".join`, and no claim depends on set order.
  * An uncaught Python exception (TypeError from `"x" in 5`, AttributeError
    from `(5).get`, ...) is modelled as `Except.error ()`.  Code paths that
    cannot raise are still typed in `Except` when they sit in a chain that
    can.
  * The accumulating `self.issues` list of the ConfigValidator class is
    threaded explicitly: every routine returns the list of issues it
    appends, and callers concatenate in execution order.
-/

inductive ValidationLevel where
  | ERROR
  | WARNING
  | INFO
deriving DecidableEq, Repr

structure ValidationIssue where
  level : ValidationLevel
  path : String
  message : String
deriving DecidableEq, Repr

inductive Value where
  | VStr (s : String)
  | VInt (n : Int)
  | VFloat (q : ℚ)
  | VBool (b : Bool)
  | VNone
  | VArr (xs : List Value)
  | VTable (kvs : List (String × Value))

abbrev Document := List (String × Value)

/-- The outcome of opening and parsing the configuration file, i.e. the
state of control at line 86 of validate_config.py: either one of the three
early-return failure branches (file missing, TOML decode error, other read
error) or a parsed top-level table. -/
inductive Source where
  | missing (path : String)
  | tomlError (msg : String)
  | readError (msg : String)
  | parsed (config : Document)

/- ---------- string helpers (Python `in`, startswith, str()) ---------- -/

def chListStarts : List Char → List Char → Bool
  | [], _ => true
  | _ :: _, [] => false
  | a :: as, b :: bs => a == b && chListStarts as bs

def chListSub (n : List Char) : List Char → Bool
  | [] => n.isEmpty
  | c :: rest => chListStarts n (c :: rest) || chListSub n rest

/-- Python substring containment: `needle in hay` for strings. -/
def substrOf (needle hay : String) : Bool := chListSub needle.data hay.data

/-- Python `s.startswith(p)`. -/
def strStarts (p s : String) : Bool := chListStarts p.data s.data

def joinComma (xs : List String) : String := String.intercalate ", " xs

/-- Python str() of a float, for the decimal values the validator uses
(0.0, 0.1, 2.0, 60.0): integers render with a trailing ".0", tenths with a
single decimal digit.  Only message text depends on this. -/
def ratStr (q : ℚ) : String :=
  if q.den == 1 then toString q.num ++ ".0"
  else
    let m : ℚ := q * 10
    if m.den == 1 then
      let sign := if q.num < 0 then "-" else ""
      let n := m.num.natAbs
      sign ++ toString (n / 10) ++ "." ++ toString (n % 10)
    else toString q.num ++ "/" ++ toString q.den

mutual
/-- Python repr() of a value (str() for every shape except strings). -/
def pyRepr : Value → String
  | .VStr s => "'" ++ s ++ "'"
  | .VInt n => toString n
  | .VFloat q => ratStr q
  | .VBool b => cond b "True" "False"
  | .VNone => "None"
  | .VArr xs => "[" ++ joinComma (pyReprList xs) ++ "]"
  | .VTable kvs => "\x7b" ++ joinComma (pyReprTable kvs) ++ "\x7d"

def pyReprList : List Value → List String
  | [] => []
  | v :: rest => pyRepr v :: pyReprList rest

def pyReprTable : List (String × Value) → List String
  | [] => []
  | (k, v) :: rest => ("'" ++ k ++ "': " ++ pyRepr v) :: pyReprTable rest
end

/-- Python str() of a value, as used by f-strings and is_valid_size. -/
def pyStr (v : Value) : String :=
  match v with
  | .VStr s => s
  | other => pyRepr other

/- ---------- Python dynamic-typing helpers ---------- -/

/-- Python `isinstance(v, int)` — true for bool as well (bool ⊂ int). -/
def pyIsInt : Value → Bool
  | .VInt _ => true
  | .VBool _ => true
  | _ => false

/-- Python `isinstance(v, (int, float))`. -/
def pyIsNum : Value → Bool
  | .VInt _ => true
  | .VBool _ => true
  | .VFloat _ => true
  | _ => false

/-- Python `isinstance(v, bool)` — strict. -/
def pyIsBool : Value → Bool
  | .VBool _ => true
  | _ => false

/-- Python `isinstance(v, str)`. -/
def pyIsStr : Value → Bool
  | .VStr _ => true
  | _ => false

/-- Python `isinstance(v, list)`. -/
def pyIsList : Value → Bool
  | .VArr _ => true
  | _ => false

/-- Numeric view of an int-like value: `True == 1`, `False == 0`. -/
def toIntVal : Value → Int
  | .VInt n => n
  | .VBool b => cond b 1 0
  | _ => 0

/-- Numeric view of a number-like value, as a rational. -/
def toRatVal : Value → ℚ
  | .VInt n => (n : ℚ)
  | .VBool b => cond b 1 0
  | .VFloat q => q
  | _ => 0

/-- Python truthiness. -/
def truthy : Value → Bool
  | .VNone => false
  | .VBool b => b
  | .VInt n => !(n == 0)
  | .VFloat q => !(q == 0)
  | .VStr s => !(s == "")
  | .VArr xs => !xs.isEmpty
  | .VTable kvs => !kvs.isEmpty

/-- Python `key in v`: key lookup for dicts, substring for strings,
element equality for lists; TypeError (modelled as `.error`) otherwise. -/
def pyIn (key : String) : Value → Except Unit Bool
  | .VTable kvs => .ok (kvs.any (fun p => p.1 == key))
  | .VStr s => .ok (substrOf key s)
  | .VArr xs =>
    .ok (xs.any (fun v => match v with | .VStr s => s == key | _ => false))
  | _ => .error ()

/-- Python `v[key]` with a string key: defined for dicts only; a string or
list raises TypeError, everything else as well. -/
def pyGet (v : Value) (key : String) : Except Unit Value :=
  match v with
  | .VTable kvs =>
    match kvs.lookup key with
    | some x => .ok x
    | none => .error ()
  | _ => .error ()

/-- Python `v.get(key, d)`: AttributeError unless v is a dict. -/
def pyGetD (v : Value) (key : String) (d : Value) : Except Unit Value :=
  match v with
  | .VTable kvs => .ok ((kvs.lookup key).getD d)
  | _ => .error ()

/-- Python `v.items()`: AttributeError unless v is a dict. -/
def pyItems : Value → Except Unit (List (String × Value))
  | .VTable kvs => .ok kvs
  | _ => .error ()

/-- Python `v in set_of_strings`: equality against the members for hashable
values (never equal for non-strings), TypeError for unhashable list/dict. -/
def pyInStrSet (v : Value) (set : List String) : Except Unit Bool :=
  match v with
  | .VStr s => .ok (set.contains s)
  | .VInt _ | .VFloat _ | .VBool _ | .VNone => .ok false
  | _ => .error ()

/-- `config.get(key, {})` on the (always-dict) top-level document. -/
def dictGetD (config : Document) (key : String) : Value :=
  (config.lookup key).getD (.VTable [])

/- ---------- class constants of ConfigValidator ---------- -/

def VALID_MODELS : List String :=
  ["gemini-1.5-flash", "gemini-1.5-pro", "gemini-2.0-flash-exp",
   "gemini-pro", "gemini-pro-vision"]

def VALID_LOG_LEVELS : List String := ["error", "warn", "info", "debug", "trace"]

def VALID_LOG_FORMATS : List String := ["json", "pretty", "compact"]

def VALID_THEMES : List String := ["default", "minimal", "solarized", "dracula"]

def VALID_SPINNER_STYLES : List String := ["dots", "line", "simple"]

def DANGEROUS_COMMANDS : List String :=
  ["rm", "dd", "mkfs", "fdisk", "shred", "chmod", "chown", ">", ">>", "|"]

def validTables : List String :=
  ["api", "repl", "logging", "tools", "session", "ui",
   "response", "network", "security", "debug", "aliases",
   "models", "prompts", "features"]

/- ---------- constraint primitives ---------- -/

/-- validate_integer_range (lines 357-362). -/
def validate_integer_range (path : String) (v : Value) (lo hi : Int) :
    List ValidationIssue :=
  if !pyIsInt v then
    [⟨.ERROR, path, "Must be an integer"⟩]
  else if toIntVal v < lo ∨ toIntVal v > hi then
    [⟨.ERROR, path, "Must be between " ++ toString lo ++ " and " ++ toString hi⟩]
  else []

/-- validate_float_range (lines 364-369). -/
def validate_float_range (path : String) (v : Value) (lo hi : ℚ) :
    List ValidationIssue :=
  if !pyIsNum v then
    [⟨.ERROR, path, "Must be a number"⟩]
  else if toRatVal v < lo ∨ toRatVal v > hi then
    [⟨.ERROR, path, "Must be between " ++ ratStr lo ++ " and " ++ ratStr hi⟩]
  else []

/-- validate_boolean (lines 371-374). -/
def validate_boolean (path : String) (v : Value) : List ValidationIssue :=
  if !pyIsBool v then [⟨.ERROR, path, "Must be true or false"⟩] else []

/-- is_valid_url (lines 376-378): `url.startswith(("http://", "https://"))`;
AttributeError on a non-string. -/
def is_valid_url (v : Value) : Except Unit Bool :=
  match v with
  | .VStr s => .ok (strStarts "http://" s || strStarts "https://" s)
  | _ => .error ()

def isDigitCh (c : Char) : Bool := c.isDigit

def isSpaceCh (c : Char) : Bool := c.isWhitespace

/-- The optional unit of SIZE_PATTERN: (B|KB?|MB?|GB?), case-insensitive. -/
def unitOk : List Char → Bool
  | [] => true
  | [c] => [ 'b', 'k', 'm', 'g' ].contains c.toLower
  | [c, d] => [ 'k', 'm', 'g' ].contains c.toLower && d.toLower == 'b'
  | _ => false

/-- SIZE_PATTERN (line 55): `^\d+(\.\d+)?\s*(B|KB?|MB?|GB?)?$`,
case-insensitive, anchored. -/
def sizeMatch (s : String) : Bool :=
  let cs := s.data
  let ds := cs.takeWhile isDigitCh
  let r1 := cs.dropWhile isDigitCh
  if ds.isEmpty then false
  else
    match r1 with
    | '.' :: rest =>
      let fs := rest.takeWhile isDigitCh
      if fs.isEmpty then false
      else unitOk ((rest.dropWhile isDigitCh).dropWhile isSpaceCh)
    | other => unitOk (other.dropWhile isSpaceCh)

/-- is_valid_size (lines 380-382): SIZE_PATTERN.match(str(size)). -/
def is_valid_size (v : Value) : Bool := sizeMatch (pyStr v)

/- ---------- sequencing combinators (the threaded self.issues) ---------- -/

/-- Run two issue-producing steps in order, concatenating their issues;
an exception in the first step prevents the second from running. -/
def andIssues (a b : Except Unit (List ValidationIssue)) :
    Except Unit (List ValidationIssue) :=
  match a, b with
  | .ok x, .ok y => .ok (x ++ y)
  | .error e, _ => .error e
  | .ok _, .error e => .error e

/-- A Python `for` loop over xs whose body appends issues. -/
def forIssues (f : α → Except Unit (List ValidationIssue)) :
    List α → Except Unit (List ValidationIssue)
  | [] => .ok []
  | x :: xs => andIssues (f x) (forIssues f xs)

/-- A pure `for` loop over xs whose body appends issues. -/
def issuesFor (f : α → List ValidationIssue) : List α → List ValidationIssue
  | [] => []
  | x :: xs => f x ++ issuesFor f xs

/-- The ubiquitous `if "field" in sec: check(sec["field"])` pattern. -/
def checkField (sec : Value) (field : String)
    (chk : Value → Except Unit (List ValidationIssue)) :
    Except Unit (List ValidationIssue) :=
  match pyIn field sec with
  | .error e => .error e
  | .ok true =>
    match pyGet sec field with
    | .error e => .error e
    | .ok v => chk v
  | .ok false => .ok []

/-- The `if "field" in sec: add_xxx(...)` pattern (field value unread). -/
def flagField (sec : Value) (field : String) (issue : ValidationIssue) :
    Except Unit (List ValidationIssue) :=
  match pyIn field sec with
  | .error e => .error e
  | .ok true => .ok [issue]
  | .ok false => .ok []

/-- The `if sec["f"] not in SET: add_error/add_warning(...)` pattern. -/
def enumCheck (path : String) (v : Value) (allowed : List String)
    (lvl : ValidationLevel) (msg : String) :
    Except Unit (List ValidationIssue) :=
  match pyInStrSet v allowed with
  | .error e => .error e
  | .ok true => .ok []
  | .ok false => .ok [⟨lvl, path, msg⟩]

/-- The `if not self.is_valid_url(sec["f"]): add_error(...)` pattern. -/
def urlCheck (path : String) (v : Value) (msg : String) :
    Except Unit (List ValidationIssue) :=
  match is_valid_url v with
  | .error e => .error e
  | .ok true => .ok []
  | .ok false => .ok [⟨.ERROR, path, msg⟩]

/-- The `if not self.is_valid_size(sec["f"]): add_error(...)` pattern. -/
def sizeCheck (path : String) (v : Value) (msg : String) :
    List ValidationIssue :=
  if is_valid_size v then [] else [⟨.ERROR, path, msg⟩]

/- ---------- section routines (the Rule Registry) ---------- -/

/-- validate_api (lines 138-166). -/
def validate_api (api : Value) : Except Unit (List ValidationIssue) :=
  andIssues (flagField api "api_key"
    ⟨.WARNING, "api.api_key",
     "API key should not be stored in config file. Use GEMINI_API_KEY environment variable."⟩)
  (andIssues (checkField api "model" (fun v =>
    enumCheck "api.model" v VALID_MODELS .ERROR
      ("Invalid model: " ++ pyStr v ++ ". Valid models: " ++ joinComma VALID_MODELS)))
  (andIssues (checkField api "base_url" (fun v =>
    urlCheck "api.base_url" v "Invalid URL format"))
  (andIssues (checkField api "timeout" (fun v =>
    .ok (validate_integer_range "api.timeout" v 1 300)))
  (andIssues (checkField api "max_retries" (fun v =>
    .ok (validate_integer_range "api.max_retries" v 0 10)))
  (checkField api "retry_delay" (fun v =>
    .ok (validate_float_range "api.retry_delay" v (1/10 : ℚ) 60)))))))

/-- validate_repl (lines 168-182). -/
def validate_repl (repl : Value) : Except Unit (List ValidationIssue) :=
  andIssues (checkField repl "history_size" (fun v =>
    .ok (validate_integer_range "repl.history_size" v 0 100000)))
  (andIssues (checkField repl "auto_save_interval" (fun v =>
    .ok (validate_integer_range "repl.auto_save_interval" v 0 3600)))
  (forIssues (fun field => checkField repl field (fun v =>
      .ok (validate_boolean ("repl." ++ field) v)))
    ["colored_prompt", "welcome_banner", "vi_mode", "multiline_mode"]))

/-- validate_logging (lines 184-205). -/
def validate_logging (logging : Value) : Except Unit (List ValidationIssue) :=
  andIssues (checkField logging "level" (fun v =>
    enumCheck "logging.level" v VALID_LOG_LEVELS .ERROR
      ("Invalid log level: " ++ pyStr v ++ ". Valid levels: " ++ joinComma VALID_LOG_LEVELS)))
  (andIssues (checkField logging "format" (fun v =>
    enumCheck "logging.format" v VALID_LOG_FORMATS .ERROR
      ("Invalid log format: " ++ pyStr v ++ ". Valid formats: " ++ joinComma VALID_LOG_FORMATS)))
  (andIssues (checkField logging "max_file_size" (fun v =>
    .ok (sizeCheck "logging.max_file_size" v "Invalid size format. Use: 10MB, 1GB, etc.")))
  (checkField logging "max_files" (fun v =>
    .ok (validate_integer_range "logging.max_files" v 1 100)))))

/-- The loop body over tools["allowed_extensions"] (lines 219-222). -/
def extensionIssues (ext : Value) : List ValidationIssue :=
  if pyIsStr ext && strStarts "." (pyStr ext) then []
  else [⟨.ERROR, "tools.allowed_extensions",
        "Invalid extension format: " ++ pyStr ext ++ ". Must start with '.'"⟩]

/-- The inner dangerous-substring scan over one command (lines 238-242). -/
def dangerScan (cmd : Value) : Except Unit (List ValidationIssue) :=
  forIssues (fun dangerous =>
    match pyIn dangerous cmd with
    | .error e => .error e
    | .ok true =>
      .ok [⟨.WARNING, "tools.commands.allowed_commands",
            "Potentially dangerous command: " ++ pyStr cmd⟩]
    | .ok false => .ok []) DANGEROUS_COMMANDS

/-- validate_tools_commands (lines 228-242). -/
def validate_tools_commands (commands : Value) : Except Unit (List ValidationIssue) :=
  andIssues (checkField commands "timeout" (fun v =>
    .ok (validate_integer_range "tools.commands.timeout" v 1 300)))
  (checkField commands "allowed_commands" (fun v =>
    match v with
    | .VArr xs => forIssues dangerScan xs
    | _ => .ok [⟨.ERROR, "tools.commands.allowed_commands", "Must be an array of strings"⟩]))

/-- validate_tools (lines 207-226). -/
def validate_tools (tools : Value) : Except Unit (List ValidationIssue) :=
  andIssues (checkField tools "max_file_size" (fun v =>
    .ok (sizeCheck "tools.max_file_size" v "Invalid size format")))
  (andIssues (checkField tools "allowed_extensions" (fun v =>
    match v with
    | .VArr xs => .ok (issuesFor extensionIssues xs)
    | _ => .ok [⟨.ERROR, "tools.allowed_extensions", "Must be an array of strings"⟩]))
  (checkField tools "commands" validate_tools_commands))

/-- validate_session (lines 244-254). -/
def validate_session (session : Value) : Except Unit (List ValidationIssue) :=
  andIssues (checkField session "max_context_size" (fun v =>
    .ok (validate_integer_range "session.max_context_size" v 1000 1000000)))
  (checkField session "prune_strategy" (fun v =>
    enumCheck "session.prune_strategy" v ["oldest", "summarize", "smart"] .ERROR
      ("Invalid strategy. Valid: " ++ joinComma ["oldest", "summarize", "smart"])))

/-- validate_ui (lines 256-269); note the theme check is a WARNING. -/
def validate_ui (ui : Value) : Except Unit (List ValidationIssue) :=
  andIssues (checkField ui "theme" (fun v =>
    enumCheck "ui.theme" v VALID_THEMES .WARNING
      ("Unknown theme: " ++ pyStr v ++ ". Valid themes: " ++ joinComma VALID_THEMES)))
  (andIssues (checkField ui "spinner_style" (fun v =>
    enumCheck "ui.spinner_style" v VALID_SPINNER_STYLES .ERROR
      ("Invalid spinner style. Valid: " ++ joinComma VALID_SPINNER_STYLES)))
  (checkField ui "max_width" (fun v =>
    .ok (validate_integer_range "ui.max_width" v 40 200))))

/-- validate_response (lines 271-283). -/
def validate_response (response : Value) : Except Unit (List ValidationIssue) :=
  andIssues (checkField response "temperature" (fun v =>
    .ok (validate_float_range "response.temperature" v 0 2)))
  (andIssues (checkField response "max_tokens" (fun v =>
    .ok (validate_integer_range "response.max_tokens" v 1 100000)))
  (checkField response "format" (fun v =>
    enumCheck "response.format" v ["auto", "plain", "markdown", "json"] .ERROR
      ("Invalid format. Valid: " ++ joinComma ["auto", "plain", "markdown", "json"]))))

/-- validate_network (lines 285-295). -/
def validate_network (network : Value) : Except Unit (List ValidationIssue) :=
  andIssues (checkField network "proxy_url" (fun v =>
    urlCheck "network.proxy_url" v "Invalid proxy URL"))
  (andIssues (checkField network "timeout_connect" (fun v =>
    .ok (validate_integer_range "network.timeout_connect" v 1 60)))
  (checkField network "timeout_read" (fun v =>
    .ok (validate_integer_range "network.timeout_read" v 1 300))))

/-- validate_security (lines 297-302). -/
def validate_security (security : Value) : Except Unit (List ValidationIssue) :=
  forIssues (fun field => checkField security field (fun v =>
      .ok (validate_boolean ("security." ++ field) v)))
    ["mask_api_key", "audit_tools", "validate_ssl", "sanitize_logs"]

/-- validate_debug (lines 304-312). -/
def validate_debug (debug : Value) : Except Unit (List ValidationIssue) :=
  andIssues (forIssues (fun field => checkField debug field (fun v =>
      .ok (validate_boolean ("debug." ++ field) v)))
    ["show_raw_api_calls", "save_recordings", "verbose_errors"])
  (checkField debug "mock_delay_ms" (fun v =>
    .ok (validate_integer_range "debug.mock_delay_ms" v 0 5000)))

/-- validate_aliases (lines 314-318). -/
def validate_aliases (aliases : Value) : Except Unit (List ValidationIssue) :=
  match pyItems aliases with
  | .error e => .error e
  | .ok kvs => .ok (issuesFor (fun p =>
      if pyIsStr p.2 then []
      else [⟨.ERROR, "aliases." ++ p.1, "Alias target must be a string"⟩]) kvs)

/-- validate_models (lines 320-328). -/
def validate_models (models : Value) : Except Unit (List ValidationIssue) :=
  match pyItems models with
  | .error e => .error e
  | .ok kvs => forIssues (fun p =>
      andIssues (checkField p.2 "temperature" (fun v =>
        .ok (validate_float_range ("models." ++ p.1 ++ ".temperature") v 0 2)))
      (checkField p.2 "max_tokens" (fun v =>
        .ok (validate_integer_range ("models." ++ p.1 ++ ".max_tokens") v 1 100000)))) kvs

/-- validate_prompts (lines 330-334). -/
def validate_prompts (prompts : Value) : Except Unit (List ValidationIssue) :=
  match pyItems prompts with
  | .error e => .error e
  | .ok kvs => .ok (issuesFor (fun p =>
      if pyIsStr p.2 then []
      else [⟨.ERROR, "prompts." ++ p.1, "Prompt must be a string"⟩]) kvs)

/-- validate_features (lines 336-339). -/
def validate_features (features : Value) : Except Unit (List ValidationIssue) :=
  match pyItems features with
  | .error e => .error e
  | .ok kvs => .ok (issuesFor (fun p =>
      validate_boolean ("features." ++ p.1) p.2) kvs)

/- ---------- structural scan, cross-validation, engine ---------- -/

/-- The warning emitted for an unrecognized top-level key (line 136):
note its path is the empty string; the key appears in the message. -/
def unkWarn (key : String) : ValidationIssue :=
  ⟨.WARNING, "", "Unknown top-level table: " ++ key⟩

/-- validate_structure (lines 126-136). -/
def validate_structure (config : Document) : List ValidationIssue :=
  issuesFor (fun p =>
    if validTables.contains p.1 then [] else [unkWarn p.1]) config

/-- The first cross rule (lines 343-347), applied to config.get("logging", \x7b\x7d). -/
def crossLogging (lg : Value) : Except Unit (List ValidationIssue) :=
  match pyGetD lg "log_requests" (.VBool false) with
  | .error e => .error e
  | .ok lr =>
    if truthy lr then
      match pyGetD lg "file" .VNone with
      | .error e => .error e
      | .ok f =>
        .ok (if truthy f then []
             else [⟨.WARNING, "logging", "log_requests is true but no log file specified"⟩])
    else .ok []

/-- The second cross rule (lines 349-353), applied to config.get("session", \x7b\x7d). -/
def crossSession (ss : Value) : Except Unit (List ValidationIssue) :=
  match pyGetD ss "auto_save" (.VBool false) with
  | .error e => .error e
  | .ok a =>
    if truthy a then
      match pyGetD ss "default_dir" .VNone with
      | .error e => .error e
      | .ok d =>
        .ok (if truthy d then []
             else [⟨.WARNING, "session", "auto_save is true but no default_dir specified"⟩])
    else .ok []

/-- cross_validate (lines 341-353). -/
def cross_validate (config : Document) : Except Unit (List ValidationIssue) :=
  andIssues (crossLogging (dictGetD config "logging"))
            (crossSession (dictGetD config "session"))

/-- The fixed dispatch order of lines 90-117: one (key, routine) pair per
`if key in config: self.validate_key(config[key])` statement, in source
order. -/
def sectionDefs : List (String × (Value → Except Unit (List ValidationIssue))) :=
  [("api", validate_api), ("repl", validate_repl), ("logging", validate_logging),
   ("tools", validate_tools), ("session", validate_session), ("ui", validate_ui),
   ("response", validate_response), ("network", validate_network),
   ("security", validate_security), ("debug", validate_debug),
   ("aliases", validate_aliases), ("models", validate_models),
   ("prompts", validate_prompts), ("features", validate_features)]

/-- One `if key in config: routine(config[key])` statement. -/
def runSection (config : Document)
    (p : String × (Value → Except Unit (List ValidationIssue))) :
    Except Unit (List ValidationIssue) :=
  match config.lookup p.1 with
  | some v => p.2 v
  | none => .ok []

/-- Lines 86-120: structural scan, then the 14 dispatch statements in
source order, then cross-validation; self.issues accumulates in that
order. -/
def collectIssues (config : Document) : Except Unit (List ValidationIssue) :=
  andIssues (.ok (validate_structure config))
    (andIssues (forIssues (runSection config) sectionDefs)
               (cross_validate config))

/-- Lines 122-124: the verdict is the absence of ERROR-level issues. -/
def validateParsed (config : Document) :
    Except Unit (Bool × List ValidationIssue) :=
  match collectIssues config with
  | .error e => .error e
  | .ok issues =>
    .ok (!(issues.any (fun i => i.level == .ERROR)), issues)

/-- validate_file (lines 66-124): the three early-return failure branches,
then the parsed-document pipeline. -/
def validate_file : Source → Except Unit (Bool × List ValidationIssue)
  | .missing p => .ok (false, [⟨.ERROR, "", "Configuration file not found: " ++ p⟩])
  | .tomlError e => .ok (false, [⟨.ERROR, "", "Invalid TOML syntax: " ++ e⟩])
  | .readError e => .ok (false, [⟨.ERROR, "", "Error reading file: " ++ e⟩])
  | .parsed config => validateParsed config

/-- True on the three failure branches of validate_file. -/
def isFailureSource : Source → Bool
  | .parsed _ => false
  | _ => true

/-- The --generate-schema branch of main (lines 399-416): a literal JSON
object built from the class constants only.  The parameter stands for
whatever document instance the process may hold; the schema reads none
of it. -/
def generateSchema (_doc : Option Document) : Value :=
  .VTable
    [("$schema", .VStr "http://json-schema.org/draft-07/schema#"),
     ("type", .VStr "object"),
     ("properties", .VTable
       [("api", .VTable
         [("type", .VStr "object"),
          ("properties", .VTable
            [("model", .VTable
              [("type", .VStr "string"),
               ("enum", .VArr (VALID_MODELS.map Value.VStr))]),
             ("timeout", .VTable
               [("type", .VStr "integer"),
                ("minimum", .VInt 1),
                ("maximum", .VInt 300)])])])])]

/-- Replace the value stored at key k, touching nothing else (used to state
that an unrecognized key's value is never read). -/
def withKeySet (config : Document) (k : String) (v' : Value) : Document :=
  config.map (fun p => if p.1 == k then (p.1, v') else p)

/- ---------- proof infrastructure ---------- -/

theorem andIssues_ok_iff {a b : Except Unit (List ValidationIssue)}
    {r : List ValidationIssue} :
    andIssues a b = .ok r ↔
      ∃ x y, a = .ok x ∧ b = .ok y ∧ r = x ++ y := by
  constructor
  · intro h
    cases ha : a with
    | error e => rw [ha] at h; simp [andIssues] at h
    | ok x =>
      cases hb : b with
      | error e => rw [ha, hb] at h; simp [andIssues] at h
      | ok y =>
        rw [ha, hb] at h
        simp only [andIssues, Except.ok.injEq] at h
        exact ⟨x, y, rfl, rfl, h.symm⟩
  · rintro ⟨x, y, rfl, rfl, rfl⟩; rfl

/-- Every issue an issue-producing step can return has a nonempty path. -/
def OkPaths (e : Except Unit (List ValidationIssue)) : Prop :=
  ∀ r, e = .ok r → ∀ i ∈ r, i.path ≠ ""

theorem okPaths_error {e : Unit} : OkPaths (.error e) := by
  intro r hr; cases hr

theorem okPaths_ok {l : List ValidationIssue} (h : ∀ i ∈ l, i.path ≠ "") :
    OkPaths (.ok l) := by
  intro r hr; cases hr; exact h

theorem okPaths_andIssues {a b : Except Unit (List ValidationIssue)}
    (ha : OkPaths a) (hb : OkPaths b) : OkPaths (andIssues a b) := by
  intro r hr i hi
  obtain ⟨x, y, hx, hy, rfl⟩ := andIssues_ok_iff.mp hr
  rcases List.mem_append.mp hi with h | h
  · exact ha x hx i h
  · exact hb y hy i h

theorem okPaths_forIssues {f : α → Except Unit (List ValidationIssue)}
    {xs : List α} (h : ∀ x ∈ xs, OkPaths (f x)) : OkPaths (forIssues f xs) := by
  induction xs with
  | nil => exact okPaths_ok (by simp)
  | cons x xs ih =>
    exact okPaths_andIssues (h x (by simp))
      (ih (fun y hy => h y (List.mem_cons_of_mem x hy)))

theorem okPaths_checkField {sec : Value} {field : String}
    {chk : Value → Except Unit (List ValidationIssue)}
    (h : ∀ v, OkPaths (chk v)) : OkPaths (checkField sec field chk) := by
  intro r hr
  unfold checkField at hr
  split at hr
  · exact absurd hr (by simp)
  · split at hr
    · exact absurd hr (by simp)
    · exact h _ r hr
  · cases hr; simp

theorem okPaths_flagField {sec : Value} {field : String}
    {issue : ValidationIssue} (h : issue.path ≠ "") :
    OkPaths (flagField sec field issue) := by
  intro r hr
  unfold flagField at hr
  split at hr
  · exact absurd hr (by simp)
  · cases hr; simpa using h
  · cases hr; simp

theorem okPaths_enumCheck {path : String} {v : Value} {allowed : List String}
    {lvl : ValidationLevel} {msg : String} (h : path ≠ "") :
    OkPaths (enumCheck path v allowed lvl msg) := by
  intro r hr
  unfold enumCheck at hr
  split at hr
  · exact absurd hr (by simp)
  · cases hr; simp
  · cases hr; simpa using h

theorem okPaths_urlCheck {path : String} {v : Value} {msg : String}
    (h : path ≠ "") : OkPaths (urlCheck path v msg) := by
  intro r hr
  unfold urlCheck at hr
  split at hr
  · exact absurd hr (by simp)
  · cases hr; simp
  · cases hr; simpa using h

theorem mem_intRange_path {i : ValidationIssue} {p : String} {v : Value}
    {lo hi : Int} (h : i ∈ validate_integer_range p v lo hi) : i.path = p := by
  unfold validate_integer_range at h
  split at h
  · simp at h; subst h; rfl
  · split at h
    · simp at h; subst h; rfl
    · simp at h

theorem mem_floatRange_path {i : ValidationIssue} {p : String} {v : Value}
    {lo hi : ℚ} (h : i ∈ validate_float_range p v lo hi) : i.path = p := by
  unfold validate_float_range at h
  split at h
  · simp at h; subst h; rfl
  · split at h
    · simp at h; subst h; rfl
    · simp at h

theorem mem_boolean_path {i : ValidationIssue} {p : String} {v : Value}
    (h : i ∈ validate_boolean p v) : i.path = p := by
  unfold validate_boolean at h
  split at h
  · simp at h; subst h; rfl
  · simp at h

theorem mem_sizeCheck_path {i : ValidationIssue} {p : String} {v : Value}
    {msg : String} (h : i ∈ sizeCheck p v msg) : i.path = p := by
  unfold sizeCheck at h
  split at h
  · simp at h
  · simp at h; subst h; rfl

theorem okPaths_intRange {p : String} {v : Value} {lo hi : Int} (h : p ≠ "") :
    OkPaths (.ok (validate_integer_range p v lo hi)) :=
  okPaths_ok (fun i hi => by rw [mem_intRange_path hi]; exact h)

theorem okPaths_floatRange {p : String} {v : Value} {lo hi : ℚ} (h : p ≠ "") :
    OkPaths (.ok (validate_float_range p v lo hi)) :=
  okPaths_ok (fun i hi => by rw [mem_floatRange_path hi]; exact h)

theorem okPaths_boolean {p : String} {v : Value} (h : p ≠ "") :
    OkPaths (.ok (validate_boolean p v)) :=
  okPaths_ok (fun i hi => by rw [mem_boolean_path hi]; exact h)

theorem okPaths_sizeCheck {p : String} {v : Value} {msg : String} (h : p ≠ "") :
    OkPaths (.ok (sizeCheck p v msg)) :=
  okPaths_ok (fun i hi => by rw [mem_sizeCheck_path hi]; exact h)

theorem mem_issuesFor {f : α → List ValidationIssue} {xs : List α}
    {i : ValidationIssue} : i ∈ issuesFor f xs ↔ ∃ x ∈ xs, i ∈ f x := by
  induction xs with
  | nil => simp [issuesFor]
  | cons x xs ih => simp [issuesFor, List.mem_append, ih]

theorem strData_append (s t : String) : (s ++ t).data = s.data ++ t.data := by
  cases s; cases t; rfl

theorem strNeEmpty_append (s t : String) (h : s ≠ "") : s ++ t ≠ "" := by
  intro hc
  apply h
  have hd := congrArg String.data hc
  rw [strData_append] at hd
  have hs : s.data = [] := (List.append_eq_nil.mp hd).1
  cases s
  simp only [String.data] at hs
  subst hs
  rfl

theorem strAppend_left_cancel {s a b : String} (h : s ++ a = s ++ b) : a = b := by
  have hd := congrArg String.data h
  rw [strData_append, strData_append] at hd
  have hc := List.append_cancel_left hd
  cases a; cases b
  simp only [String.data] at hc
  subst hc
  rfl

theorem mem_extension_path {i : ValidationIssue} {ext : Value}
    (h : i ∈ extensionIssues ext) : i.path = "tools.allowed_extensions" := by
  unfold extensionIssues at h
  split at h
  · simp at h
  · simp at h; subst h; rfl

theorem okPaths_dangerScan (cmd : Value) : OkPaths (dangerScan cmd) := by
  unfold dangerScan
  refine okPaths_forIssues ?_
  intro d _ r hr
  split at hr
  · exact absurd hr (by simp)
  · cases hr
    intro i hi
    simp at hi; subst hi
    exact (by decide : ("tools.commands.allowed_commands" : String) ≠ "")
  · cases hr; simp

theorem okPaths_validate_api (v : Value) : OkPaths (validate_api v) := by
  unfold validate_api
  refine okPaths_andIssues (okPaths_flagField (by decide)) ?_
  refine okPaths_andIssues (okPaths_checkField (fun w => okPaths_enumCheck (by decide))) ?_
  refine okPaths_andIssues (okPaths_checkField (fun w => okPaths_urlCheck (by decide))) ?_
  refine okPaths_andIssues (okPaths_checkField (fun w => okPaths_intRange (by decide))) ?_
  refine okPaths_andIssues (okPaths_checkField (fun w => okPaths_intRange (by decide))) ?_
  exact okPaths_checkField (fun w => okPaths_floatRange (by decide))

theorem okPaths_validate_repl (v : Value) : OkPaths (validate_repl v) := by
  unfold validate_repl
  refine okPaths_andIssues (okPaths_checkField (fun w => okPaths_intRange (by decide))) ?_
  refine okPaths_andIssues (okPaths_checkField (fun w => okPaths_intRange (by decide))) ?_
  refine okPaths_forIssues ?_
  intro field _
  exact okPaths_checkField
    (fun w => okPaths_boolean (strNeEmpty_append "repl." field (by decide)))

theorem okPaths_validate_logging (v : Value) : OkPaths (validate_logging v) := by
  unfold validate_logging
  refine okPaths_andIssues (okPaths_checkField (fun w => okPaths_enumCheck (by decide))) ?_
  refine okPaths_andIssues (okPaths_checkField (fun w => okPaths_enumCheck (by decide))) ?_
  refine okPaths_andIssues (okPaths_checkField (fun w => okPaths_sizeCheck (by decide))) ?_
  exact okPaths_checkField (fun w => okPaths_intRange (by decide))

theorem okPaths_validate_tools_commands (v : Value) :
    OkPaths (validate_tools_commands v) := by
  unfold validate_tools_commands
  refine okPaths_andIssues (okPaths_checkField (fun w => okPaths_intRange (by decide)))
    (okPaths_checkField ?_)
  intro w
  cases w
  case VArr xs => exact okPaths_forIssues (fun cmd _ => okPaths_dangerScan cmd)
  all_goals exact okPaths_ok (by decide)

theorem okPaths_validate_tools (v : Value) : OkPaths (validate_tools v) := by
  unfold validate_tools
  refine okPaths_andIssues (okPaths_checkField (fun w => okPaths_sizeCheck (by decide))) ?_
  refine okPaths_andIssues (okPaths_checkField ?_)
    (okPaths_checkField okPaths_validate_tools_commands)
  intro w
  cases w
  case VArr xs =>
    refine okPaths_ok ?_
    intro i hi
    obtain ⟨x, _, hx⟩ := mem_issuesFor.mp hi
    rw [mem_extension_path hx]; decide
  all_goals exact okPaths_ok (by decide)

theorem okPaths_validate_session (v : Value) : OkPaths (validate_session v) := by
  unfold validate_session
  exact okPaths_andIssues (okPaths_checkField (fun w => okPaths_intRange (by decide)))
    (okPaths_checkField (fun w => okPaths_enumCheck (by decide)))

theorem okPaths_validate_ui (v : Value) : OkPaths (validate_ui v) := by
  unfold validate_ui
  refine okPaths_andIssues (okPaths_checkField (fun w => okPaths_enumCheck (by decide))) ?_
  exact okPaths_andIssues (okPaths_checkField (fun w => okPaths_enumCheck (by decide)))
    (okPaths_checkField (fun w => okPaths_intRange (by decide)))

theorem okPaths_validate_response (v : Value) : OkPaths (validate_response v) := by
  unfold validate_response
  refine okPaths_andIssues (okPaths_checkField (fun w => okPaths_floatRange (by decide))) ?_
  exact okPaths_andIssues (okPaths_checkField (fun w => okPaths_intRange (by decide)))
    (okPaths_checkField (fun w => okPaths_enumCheck (by decide)))

theorem okPaths_validate_network (v : Value) : OkPaths (validate_network v) := by
  unfold validate_network
  refine okPaths_andIssues (okPaths_checkField (fun w => okPaths_urlCheck (by decide))) ?_
  exact okPaths_andIssues (okPaths_checkField (fun w => okPaths_intRange (by decide)))
    (okPaths_checkField (fun w => okPaths_intRange (by decide)))

theorem okPaths_validate_security (v : Value) : OkPaths (validate_security v) := by
  unfold validate_security
  refine okPaths_forIssues ?_
  intro field _
  exact okPaths_checkField
    (fun w => okPaths_boolean (strNeEmpty_append "security." field (by decide)))

theorem okPaths_validate_debug (v : Value) : OkPaths (validate_debug v) := by
  unfold validate_debug
  refine okPaths_andIssues (okPaths_forIssues ?_)
    (okPaths_checkField (fun w => okPaths_intRange (by decide)))
  intro field _
  exact okPaths_checkField
    (fun w => okPaths_boolean (strNeEmpty_append "debug." field (by decide)))

theorem okPaths_validate_aliases (v : Value) : OkPaths (validate_aliases v) := by
  intro r hr
  unfold validate_aliases at hr
  split at hr
  · exact absurd hr (by simp)
  · cases hr
    intro i hi
    obtain ⟨p, _, hp⟩ := mem_issuesFor.mp hi
    revert hp
    split
    · simp
    · intro hp; simp at hp; subst hp
      exact strNeEmpty_append "aliases." p.1 (by decide)

theorem okPaths_validate_models (v : Value) : OkPaths (validate_models v) := by
  intro r hr
  unfold validate_models at hr
  split at hr
  · exact absurd hr (by simp)
  · refine okPaths_forIssues ?_ r hr
    intro p _
    refine okPaths_andIssues (okPaths_checkField (fun w => okPaths_floatRange ?_))
      (okPaths_checkField (fun w => okPaths_intRange ?_))
    · exact strNeEmpty_append _ _ (strNeEmpty_append "models." p.1 (by decide))
    · exact strNeEmpty_append _ _ (strNeEmpty_append "models." p.1 (by decide))

theorem okPaths_validate_prompts (v : Value) : OkPaths (validate_prompts v) := by
  intro r hr
  unfold validate_prompts at hr
  split at hr
  · exact absurd hr (by simp)
  · cases hr
    intro i hi
    obtain ⟨p, _, hp⟩ := mem_issuesFor.mp hi
    revert hp
    split
    · simp
    · intro hp; simp at hp; subst hp
      exact strNeEmpty_append "prompts." p.1 (by decide)

theorem okPaths_validate_features (v : Value) : OkPaths (validate_features v) := by
  intro r hr
  unfold validate_features at hr
  split at hr
  · exact absurd hr (by simp)
  · cases hr
    intro i hi
    obtain ⟨p, _, hp⟩ := mem_issuesFor.mp hi
    rw [mem_boolean_path hp]
    exact strNeEmpty_append "features." p.1 (by decide)

theorem sectionDefs_okPaths :
    ∀ p ∈ sectionDefs, ∀ v, OkPaths (p.2 v) := by
  intro p hp
  simp only [sectionDefs, List.mem_cons, List.not_mem_nil, or_false] at hp
  rcases hp with rfl | rfl | rfl | rfl | rfl | rfl | rfl | rfl | rfl | rfl | rfl | rfl | rfl | rfl
  · exact okPaths_validate_api
  · exact okPaths_validate_repl
  · exact okPaths_validate_logging
  · exact okPaths_validate_tools
  · exact okPaths_validate_session
  · exact okPaths_validate_ui
  · exact okPaths_validate_response
  · exact okPaths_validate_network
  · exact okPaths_validate_security
  · exact okPaths_validate_debug
  · exact okPaths_validate_aliases
  · exact okPaths_validate_models
  · exact okPaths_validate_prompts
  · exact okPaths_validate_features

theorem crossLogging_issues {lg : Value} {r : List ValidationIssue}
    (h : crossLogging lg = .ok r) :
    ∀ i ∈ r, i.level = .WARNING ∧ i.path = "logging" := by
  unfold crossLogging at h
  split at h
  · exact absurd h (by simp)
  · split at h
    · split at h
      · exact absurd h (by simp)
      · cases h
        intro i hi
        revert hi
        split
        · simp
        · intro hi; simp at hi; subst hi; exact ⟨rfl, rfl⟩
    · cases h; simp

theorem crossSession_issues {ss : Value} {r : List ValidationIssue}
    (h : crossSession ss = .ok r) :
    ∀ i ∈ r, i.level = .WARNING ∧ i.path = "session" := by
  unfold crossSession at h
  split at h
  · exact absurd h (by simp)
  · split at h
    · split at h
      · exact absurd h (by simp)
      · cases h
        intro i hi
        revert hi
        split
        · simp
        · intro hi; simp at hi; subst hi; exact ⟨rfl, rfl⟩
    · cases h; simp

theorem cross_validate_issues {config : Document} {r : List ValidationIssue}
    (h : cross_validate config = .ok r) :
    ∀ i ∈ r, i.level = .WARNING ∧ (i.path = "logging" ∨ i.path = "session") := by
  unfold cross_validate at h
  obtain ⟨x, y, hx, hy, rfl⟩ := andIssues_ok_iff.mp h
  intro i hi
  rcases List.mem_append.mp hi with hm | hm
  · exact ⟨(crossLogging_issues hx i hm).1, .inl (crossLogging_issues hx i hm).2⟩
  · exact ⟨(crossSession_issues hy i hm).1, .inr (crossSession_issues hy i hm).2⟩

theorem forIssues_all {P : ValidationIssue → Prop}
    {f : α → Except Unit (List ValidationIssue)} {xs : List α}
    (h : ∀ x ∈ xs, ∀ r, f x = .ok r → ∀ i ∈ r, P i) :
    ∀ r, forIssues f xs = .ok r → ∀ i ∈ r, P i := by
  induction xs with
  | nil =>
    intro r hr; cases hr; simp
  | cons x xs ih =>
    intro r hr
    obtain ⟨a, b, ha, hb, rfl⟩ := andIssues_ok_iff.mp hr
    intro i hi
    rcases List.mem_append.mp hi with hm | hm
    · exact h x (by simp) a ha i hm
    · exact ih (fun y hy => h y (List.mem_cons_of_mem x hy)) b hb i hm

theorem dangerScan_warning {cmd : Value} {r : List ValidationIssue}
    (h : dangerScan cmd = .ok r) : ∀ i ∈ r, i.level = .WARNING := by
  unfold dangerScan at h
  refine forIssues_all ?_ r h
  intro d _ s hs
  split at hs
  · exact absurd hs (by simp)
  · cases hs
    intro i hi
    simp at hi; subst hi; rfl
  · cases hs; simp

/- ---------- counting the unknown-table warning ---------- -/

def countIssue (a : ValidationIssue) : List ValidationIssue → Nat
  | [] => 0
  | i :: is => (if i = a then 1 else 0) + countIssue a is

theorem countIssue_append (a : ValidationIssue) (l₁ l₂ : List ValidationIssue) :
    countIssue a (l₁ ++ l₂) = countIssue a l₁ + countIssue a l₂ := by
  induction l₁ with
  | nil => simp [countIssue]
  | cons i is ih => simp [countIssue, ih]; omega

theorem countIssue_eq_zero {a : ValidationIssue} {l : List ValidationIssue}
    (h : a ∉ l) : countIssue a l = 0 := by
  induction l with
  | nil => rfl
  | cons i is ih =>
    have hi : i ≠ a := fun he => h (by simp [he])
    have his : a ∉ is := fun hm => h (List.mem_cons_of_mem i hm)
    simp [countIssue, hi, ih his]

theorem unkWarn_inj {a b : String} (h : unkWarn a = unkWarn b) : a = b := by
  have hm := congrArg ValidationIssue.message h
  simp only [unkWarn] at hm
  exact strAppend_left_cancel hm

theorem structure_cons (p : String × Value) (rest : Document) :
    validate_structure (p :: rest) =
      (if validTables.contains p.1 then [] else [unkWarn p.1]) ++
        validate_structure rest := rfl

theorem mem_structure {config : Document} {i : ValidationIssue}
    (h : i ∈ validate_structure config) : ∃ key, i = unkWarn key := by
  obtain ⟨p, _, hm⟩ := mem_issuesFor.mp h
  revert hm
  split
  · simp
  · intro hm; simp at hm; exact ⟨p.1, hm⟩

theorem countUnk_zero {config : Document} {k : String}
    (h : k ∉ config.map Prod.fst) :
    countIssue (unkWarn k) (validate_structure config) = 0 := by
  induction config with
  | nil => rfl
  | cons p rest ih =>
    have hk : k ≠ p.1 := fun he => h (by simp [he])
    have hrest : k ∉ rest.map Prod.fst := fun hm => h (by simp [hm])
    rw [structure_cons, countIssue_append, ih hrest]
    have hne : unkWarn p.1 ≠ unkWarn k := fun he => hk (unkWarn_inj he).symm
    split
    · rfl
    · simp [countIssue, hne]

theorem countUnk_one {config : Document} {k : String}
    (hnd : (config.map Prod.fst).Nodup) (hmem : k ∈ config.map Prod.fst)
    (hunk : k ∉ validTables) :
    countIssue (unkWarn k) (validate_structure config) = 1 := by
  induction config with
  | nil => simp at hmem
  | cons p rest ih =>
    obtain ⟨a, b⟩ := p
    rw [List.map_cons, List.nodup_cons] at hnd
    obtain ⟨hnotin, hndr⟩ := hnd
    rw [structure_cons, countIssue_append]
    by_cases hk : k = a
    · have hcf : validTables.contains a ≠ true := fun hc =>
        hunk (hk ▸ List.elem_iff.mp hc)
      rw [if_neg hcf]
      have hz : countIssue (unkWarn k) (validate_structure rest) = 0 :=
        countUnk_zero (hk ▸ hnotin)
      have heqa : unkWarn a = unkWarn k := by rw [hk]
      simp [countIssue, hz, heqa]
    · have hmem' : k ∈ rest.map Prod.fst := by
        rcases List.mem_cons.mp hmem with h | h
        · exact absurd h hk
        · exact h
      have hne : unkWarn a ≠ unkWarn k := fun he => hk (unkWarn_inj he).symm
      rw [ih hndr hmem']
      split
      · rfl
      · simp [countIssue, hne]

/- ---------- the unrecognized key's value is never read ---------- -/

theorem withKeySet_cons {k : String} {v' : Value} (a : String) (b : Value)
    (rest : Document) :
    withKeySet ((a, b) :: rest) k v' =
      (if a == k then (a, v') else (a, b)) :: withKeySet rest k v' := rfl

theorem lookup_withKeySet_ne {config : Document} {k n : String} {v' : Value}
    (h : n ≠ k) : (withKeySet config k v').lookup n = config.lookup n := by
  induction config with
  | nil => rfl
  | cons p rest ih =>
    obtain ⟨a, b⟩ := p
    rw [withKeySet_cons]
    by_cases hak : a = k
    · rw [if_pos (beq_iff_eq.mpr hak)]
      have hna : (n == a) = false := beq_eq_false_iff_ne.mpr (hak ▸ h)
      simp only [List.lookup, hna]
      exact ih
    · rw [if_neg (by simp [hak])]
      by_cases hna : n = a
      · simp only [List.lookup, beq_iff_eq.mpr hna]
      · have hnaf : (n == a) = false := beq_eq_false_iff_ne.mpr hna
        simp only [List.lookup, hnaf]
        exact ih

theorem structure_withKeySet {config : Document} {k : String} {v' : Value} :
    validate_structure (withKeySet config k v') = validate_structure config := by
  induction config with
  | nil => rfl
  | cons p rest ih =>
    obtain ⟨a, b⟩ := p
    have hfst : ((if (a == k) = true then (a, v') else (a, b)) : String × Value).1 = a := by
      split <;> rfl
    calc validate_structure (withKeySet ((a, b) :: rest) k v')
        = (if validTables.contains ((if (a == k) = true then (a, v') else (a, b)) : String × Value).1
             then ([] : List ValidationIssue)
             else [unkWarn ((if (a == k) = true then (a, v') else (a, b)) : String × Value).1]) ++
            validate_structure (withKeySet rest k v') := rfl
      _ = (if validTables.contains a then [] else [unkWarn a]) ++
            validate_structure rest := by rw [hfst, ih]
      _ = validate_structure ((a, b) :: rest) := rfl

theorem cross_withKeySet {config : Document} {k : String} {v' : Value}
    (h1 : "logging" ≠ k) (h2 : "session" ≠ k) :
    cross_validate (withKeySet config k v') = cross_validate config := by
  unfold cross_validate dictGetD
  rw [lookup_withKeySet_ne h1, lookup_withKeySet_ne h2]

theorem sectionDefs_names : sectionDefs.map Prod.fst = validTables := rfl

theorem runSection_withKeySet {config : Document} {k : String} {v' : Value}
    {p : String × (Value → Except Unit (List ValidationIssue))}
    (hp : p ∈ sectionDefs) (hunk : k ∉ validTables) :
    runSection (withKeySet config k v') p = runSection config p := by
  have hne : p.1 ≠ k := by
    intro he
    apply hunk
    rw [← he, ← sectionDefs_names]
    exact List.mem_map_of_mem Prod.fst hp
  unfold runSection
  rw [lookup_withKeySet_ne hne]

theorem forIssues_congr {f g : α → Except Unit (List ValidationIssue)}
    {xs : List α} (h : ∀ x ∈ xs, f x = g x) : forIssues f xs = forIssues g xs := by
  induction xs with
  | nil => rfl
  | cons x xs ih =>
    show andIssues (f x) (forIssues f xs) = andIssues (g x) (forIssues g xs)
    rw [h x (by simp), ih (fun y hy => h y (List.mem_cons_of_mem x hy))]

theorem okPaths_runSection (config : Document)
    {p : String × (Value → Except Unit (List ValidationIssue))}
    (hp : p ∈ sectionDefs) : OkPaths (runSection config p) := by
  unfold runSection
  split
  · exact sectionDefs_okPaths p hp _
  · exact okPaths_ok (by simp)

theorem validate_parsed_ok {config : Document} {b : Bool}
    {r : List ValidationIssue}
    (h : validate_file (.parsed config) = .ok (b, r)) :
    collectIssues config = .ok r ∧
      (!(r.any (fun i => i.level == ValidationLevel.ERROR))) = b := by
  have h' : validateParsed config = .ok (b, r) := h
  unfold validateParsed at h'
  cases hc : collectIssues config with
  | error e => rw [hc] at h'; exact absurd h' (by simp)
  | ok is =>
    rw [hc] at h'
    simp only [Except.ok.injEq, Prod.mk.injEq] at h'
    obtain ⟨hb, hi⟩ := h'
    subst hi
    exact ⟨rfl, hb⟩

theorem collect_withKeySet {config : Document} {k : String} {v' : Value}
    (hunk : k ∉ validTables) :
    collectIssues (withKeySet config k v') = collectIssues config := by
  have h1 : "logging" ≠ k := by
    intro he; exact hunk (he ▸ (by decide : "logging" ∈ validTables))
  have h2 : "session" ≠ k := by
    intro he; exact hunk (he ▸ (by decide : "session" ∈ validTables))
  unfold collectIssues
  rw [structure_withKeySet, cross_withKeySet h1 h2,
    forIssues_congr (fun p hp => runSection_withKeySet hp hunk)]

/- ---------- the claims ---------- -/

/-- C1: for every source accepted by validate_file (a result is returned),
the verdict is true if and only if the returned issue list contains no
ERROR-severity issue; WARNING and INFO issues never make the verdict
false. -/
theorem c1_ok_iff_no_error (src : Source) (b : Bool)
    (issues : List ValidationIssue)
    (h : validate_file src = .ok (b, issues)) :
    b = true ↔ ∀ i ∈ issues, i.level ≠ ValidationLevel.ERROR := by
  cases src with
  | missing p =>
    simp only [validate_file, Except.ok.injEq, Prod.mk.injEq] at h
    obtain ⟨rfl, rfl⟩ := h
    simp
  | tomlError e =>
    simp only [validate_file, Except.ok.injEq, Prod.mk.injEq] at h
    obtain ⟨rfl, rfl⟩ := h
    simp
  | readError e =>
    simp only [validate_file, Except.ok.injEq, Prod.mk.injEq] at h
    obtain ⟨rfl, rfl⟩ := h
    simp
  | parsed config =>
    obtain ⟨_, hb⟩ := validate_parsed_ok h
    rw [← hb]
    simp [List.any_eq_true]

theorem c1_ok_iff_no_error_witness :
    true = true ↔ ∀ i ∈ ([] : List ValidationIssue),
      i.level ≠ ValidationLevel.ERROR :=
  c1_ok_iff_no_error (.parsed []) true [] rfl

/-- C3: every failing source (missing file, TOML syntax error, read error)
yields the verdict false together with exactly one ERROR issue whose path
is the empty string — no structural, per-section, or cross-validation
issue is ever added on those branches. -/
theorem c3_failure_single_error (src : Source)
    (h : isFailureSource src = true) :
    ∃ m : String,
      validate_file src = .ok (false, [⟨.ERROR, "", m⟩]) := by
  cases src with
  | missing p => exact ⟨"Configuration file not found: " ++ p, rfl⟩
  | tomlError e => exact ⟨"Invalid TOML syntax: " ++ e, rfl⟩
  | readError e => exact ⟨"Error reading file: " ++ e, rfl⟩
  | parsed config => simp [isFailureSource] at h

theorem c3_failure_single_error_witness :
    ∃ m : String,
      validate_file (.tomlError "unexpected token") =
        .ok (false, [⟨.ERROR, "", m⟩]) :=
  c3_failure_single_error (.tomlError "unexpected token") rfl

/-- C4: for integer-range bounds lo ≤ hi, the values lo and hi pass
(inclusive bounds), lo−1 and hi+1 each produce exactly the one ERROR
"Must be between lo and hi", and any value that is not of integer type
produces exactly the one ERROR "Must be an integer". -/
theorem c4_integer_range_bounds (path : String) (lo hi : Int)
    (hle : lo ≤ hi) :
    validate_integer_range path (.VInt lo) lo hi = [] ∧
    validate_integer_range path (.VInt hi) lo hi = [] ∧
    validate_integer_range path (.VInt (lo - 1)) lo hi =
      [⟨.ERROR, path,
        "Must be between " ++ toString lo ++ " and " ++ toString hi⟩] ∧
    validate_integer_range path (.VInt (hi + 1)) lo hi =
      [⟨.ERROR, path,
        "Must be between " ++ toString lo ++ " and " ++ toString hi⟩] ∧
    ∀ v, pyIsInt v = false →
      validate_integer_range path v lo hi =
        [⟨.ERROR, path, "Must be an integer"⟩] := by
  refine ⟨?_, ?_, ?_, ?_, ?_⟩
  · simp [validate_integer_range, pyIsInt, toIntVal]; omega
  · simp [validate_integer_range, pyIsInt, toIntVal]; omega
  · simp [validate_integer_range, pyIsInt, toIntVal]
  · simp [validate_integer_range, pyIsInt, toIntVal]
  · intro v hv
    simp [validate_integer_range, hv]

theorem c4_integer_range_bounds_witness :
    validate_integer_range "api.timeout" (.VInt 1) 1 300 = [] ∧
    validate_integer_range "api.timeout" (.VInt 0) 1 300 =
      [⟨.ERROR, "api.timeout", "Must be between 1 and 300"⟩] ∧
    validate_integer_range "api.timeout" (.VStr "fast") 1 300 =
      [⟨.ERROR, "api.timeout", "Must be an integer"⟩] :=
  ⟨(c4_integer_range_bounds "api.timeout" 1 300 (by decide)).1,
   by
     have h := (c4_integer_range_bounds "api.timeout" 1 300 (by decide)).2.2.1
     simpa using h,
   (c4_integer_range_bounds "api.timeout" 1 300 (by decide)).2.2.2.2
     (.VStr "fast") rfl⟩

/-- C5: a strictly boolean value produces no issue from the boolean check;
every non-boolean value (including the integer 1 and boolean-looking
strings) produces exactly the one ERROR "Must be true or false" — no
coercion to boolean happens. -/
theorem c5_boolean_strict (path : String) (v : Value)
    (hv : pyIsBool v = false) :
    validate_boolean path v = [⟨.ERROR, path, "Must be true or false"⟩] ∧
    ∀ b : Bool, validate_boolean path (.VBool b) = [] := by
  constructor
  · simp [validate_boolean, hv]
  · intro b; simp [validate_boolean, pyIsBool]

theorem c5_boolean_strict_witness :
    (validate_boolean "repl.vi_mode" (.VInt 1) =
      [⟨.ERROR, "repl.vi_mode", "Must be true or false"⟩]) ∧
    (validate_boolean "repl.vi_mode" (.VStr "true") =
      [⟨.ERROR, "repl.vi_mode", "Must be true or false"⟩]) ∧
    validate_boolean "repl.vi_mode" (.VBool true) = [] :=
  ⟨(c5_boolean_strict "repl.vi_mode" (.VInt 1) rfl).1,
   (c5_boolean_strict "repl.vi_mode" (.VStr "true") rfl).1,
   (c5_boolean_strict "repl.vi_mode" (.VInt 1) rfl).2 true⟩

/-- C9: the schema dump is a constant function of the static registry
data: it does not depend on any document instance, so calling it twice
with no intervening state change returns structurally identical output. -/
theorem c9_schema_pure (d₁ d₂ : Option Document) :
    generateSchema d₁ = generateSchema d₂ := rfl

/-- C10: the range checks treat booleans as numbers (Python bool is a
subclass of int, with True == 1 and False == 0 compared against the
bounds); in particular api.timeout = true validates cleanly, since 1 lies
in [1, 300], instead of producing the "Must be an integer" ERROR. -/
theorem c10_bool_as_number :
    (∀ (path : String) (b : Bool) (lo hi : Int),
      validate_integer_range path (.VBool b) lo hi =
        if (cond b 1 0 : Int) < lo ∨ (cond b 1 0 : Int) > hi then
          [⟨.ERROR, path,
            "Must be between " ++ toString lo ++ " and " ++ toString hi⟩]
        else []) ∧
    (∀ (path : String) (b : Bool) (lo hi : ℚ),
      validate_float_range path (.VBool b) lo hi =
        if (cond b 1 0 : ℚ) < lo ∨ (cond b 1 0 : ℚ) > hi then
          [⟨.ERROR, path,
            "Must be between " ++ ratStr lo ++ " and " ++ ratStr hi⟩]
        else []) ∧
    validate_file (.parsed [("api", .VTable [("timeout", .VBool true)])]) =
      .ok (true, []) := by
  refine ⟨?_, ?_, rfl⟩
  · intro path b lo hi
    simp [validate_integer_range, pyIsInt, toIntVal]
  · intro path b lo hi
    simp [validate_float_range, pyIsNum, toRatVal]

/-- C6: both cross-validation rules only ever emit WARNING-severity issues
(never ERROR), and the document with logging.log_requests = true and no
logging.file yields exactly one WARNING at path "logging" with the verdict
true. -/
theorem c6_cross_rules_warn :
    (∀ (config : Document) (r : List ValidationIssue),
       cross_validate config = .ok r →
       ∀ i ∈ r, i.level = ValidationLevel.WARNING) ∧
    validate_file (.parsed [("logging", .VTable [("log_requests", .VBool true)])]) =
      .ok (true,
        [⟨.WARNING, "logging", "log_requests is true but no log file specified"⟩]) :=
  ⟨fun _ _ h i hi => (cross_validate_issues h i hi).1, rfl⟩

theorem c6_cross_rules_warn_witness :
    (⟨ValidationLevel.WARNING, "logging",
      "log_requests is true but no log file specified"⟩ : ValidationIssue).level =
      ValidationLevel.WARNING :=
  c6_cross_rules_warn.1 [("logging", .VTable [("log_requests", .VBool true)])]
    [⟨.WARNING, "logging", "log_requests is true but no log file specified"⟩]
    rfl _ (by simp)

/-- C7: the dangerous-substring scan over an allowed-commands element only
ever emits WARNING-severity issues, and the document whose allowed
commands are ["rm -rf /tmp/x"] yields exactly one WARNING with the
verdict true. -/
theorem c7_danger_scan_warns :
    (∀ (cmd : Value) (r : List ValidationIssue),
       dangerScan cmd = .ok r → ∀ i ∈ r, i.level = ValidationLevel.WARNING) ∧
    validate_file (.parsed [("tools", .VTable [("commands", .VTable
        [("allowed_commands", .VArr [.VStr "rm -rf /tmp/x"])])])]) =
      .ok (true, [⟨.WARNING, "tools.commands.allowed_commands",
                   "Potentially dangerous command: rm -rf /tmp/x"⟩]) :=
  ⟨fun _ _ h => dangerScan_warning h, rfl⟩

theorem c7_danger_scan_warns_witness :
    (⟨ValidationLevel.WARNING, "tools.commands.allowed_commands",
      "Potentially dangerous command: rm -rf /tmp/x"⟩ : ValidationIssue).level =
      ValidationLevel.WARNING :=
  c7_danger_scan_warns.1 (.VStr "rm -rf /tmp/x")
    [⟨.WARNING, "tools.commands.allowed_commands",
      "Potentially dangerous command: rm -rf /tmp/x"⟩]
    rfl _ (by simp)

/-- C2 counterexample: on the document with the single unrecognized key
"bogus", the whole result is one WARNING whose path is the empty string —
so the number of warnings whose path equals the key is zero, not one as
the claim states. -/
theorem c2_counterexample :
    validate_file (.parsed [("bogus", .VTable [])]) =
      .ok (true, [⟨.WARNING, "", "Unknown top-level table: bogus"⟩]) ∧
    ([(⟨.WARNING, "", "Unknown top-level table: bogus"⟩ : ValidationIssue)].countP
      (fun i => i.path == "bogus")) = 0 :=
  ⟨rfl, rfl⟩

/-- C2 (amended): for every successfully validated document with an
unrecognized top-level key k, the result contains exactly one WARNING
reporting k — its path is the empty string and its message is
"Unknown top-level table: k" — every empty-path issue of such a result is
a WARNING (so no ERROR arises from k), and no section routine is invoked
for k: replacing the value stored at k changes nothing in the result. -/
theorem c2_unknown_key_amended (config : Document) (k : String) (v' : Value)
    (b : Bool) (r : List ValidationIssue)
    (hmem : k ∈ config.map Prod.fst)
    (hnd : (config.map Prod.fst).Nodup)
    (hunk : k ∉ validTables)
    (h : validate_file (.parsed config) = .ok (b, r)) :
    countIssue (unkWarn k) r = 1 ∧
    (∀ i ∈ r, i.path = "" → i.level = ValidationLevel.WARNING) ∧
    validate_file (.parsed (withKeySet config k v')) = .ok (b, r) := by
  obtain ⟨hc, hb⟩ := validate_parsed_ok h
  have hcu := hc
  unfold collectIssues at hcu
  obtain ⟨st, rest, hst, hrest, hre⟩ := andIssues_ok_iff.mp hcu
  injection hst with hst'
  subst hst'
  obtain ⟨sec, cr, hsec, hcr, hre2⟩ := andIssues_ok_iff.mp hrest
  subst hre2
  subst hre
  have hsecp : ∀ i ∈ sec, i.path ≠ "" :=
    okPaths_forIssues (fun p hp => okPaths_runSection config hp) sec hsec
  have hcrp : ∀ i ∈ cr, i.path ≠ "" := fun i hi => by
    rcases (cross_validate_issues hcr i hi).2 with hp | hp <;> simp [hp]
  have hcrw : ∀ i ∈ cr, i.level = ValidationLevel.WARNING :=
    fun i hi => (cross_validate_issues hcr i hi).1
  refine ⟨?_, ?_, ?_⟩
  · rw [countIssue_append, countIssue_append]
    rw [countUnk_one hnd hmem hunk]
    have z1 : countIssue (unkWarn k) sec = 0 :=
      countIssue_eq_zero (fun hm => hsecp _ hm rfl)
    have z2 : countIssue (unkWarn k) cr = 0 :=
      countIssue_eq_zero (fun hm => hcrp _ hm rfl)
    rw [z1, z2]
  · intro i hi hpath
    rcases List.mem_append.mp hi with hm | hm
    · obtain ⟨key, rfl⟩ := mem_structure hm
      rfl
    · rcases List.mem_append.mp hm with hm2 | hm2
      · exact absurd hpath (hsecp i hm2)
      · exact hcrw i hm2
  · show validateParsed (withKeySet config k v') = _
    have heq : validateParsed (withKeySet config k v') = validateParsed config := by
      unfold validateParsed
      rw [collect_withKeySet hunk]
    rw [heq]
    exact h

theorem c2_unknown_key_amended_witness :
    countIssue (unkWarn "bogus")
      [⟨ValidationLevel.WARNING, "", "Unknown top-level table: bogus"⟩] = 1 ∧
    validate_file
        (.parsed (withKeySet [("bogus", Value.VTable [])] "bogus" (.VInt 7))) =
      .ok (true, [⟨ValidationLevel.WARNING, "", "Unknown top-level table: bogus"⟩]) :=
  ⟨(c2_unknown_key_amended [("bogus", .VTable [])] "bogus" (.VInt 7) true
      [⟨.WARNING, "", "Unknown top-level table: bogus"⟩]
      (by decide) (by decide) (by decide) rfl).1,
   (c2_unknown_key_amended [("bogus", .VTable [])] "bogus" (.VInt 7) true
      [⟨.WARNING, "", "Unknown top-level table: bogus"⟩]
      (by decide) (by decide) (by decide) rfl).2.2⟩

/-- C8: for every successfully validated document, the issue list
decomposes as the structural-scan warnings first, then the per-section
issues in the fixed section-definition order (api, repl, logging, tools,
session, ui, response, network, security, debug, aliases, models, prompts,
features), then the cross-validation issues last; and the per-section part
depends on the document only through key lookup, hence not on the order of
the keys in the input. -/
theorem c8_issue_order (config : Document) (b : Bool)
    (r : List ValidationIssue)
    (h : validate_file (.parsed config) = .ok (b, r)) :
    (∃ iA iR iL iT iS iU iRe iN iSe iD iAl iM iP iF cr,
      runSection config ("api", validate_api) = .ok iA ∧
      runSection config ("repl", validate_repl) = .ok iR ∧
      runSection config ("logging", validate_logging) = .ok iL ∧
      runSection config ("tools", validate_tools) = .ok iT ∧
      runSection config ("session", validate_session) = .ok iS ∧
      runSection config ("ui", validate_ui) = .ok iU ∧
      runSection config ("response", validate_response) = .ok iRe ∧
      runSection config ("network", validate_network) = .ok iN ∧
      runSection config ("security", validate_security) = .ok iSe ∧
      runSection config ("debug", validate_debug) = .ok iD ∧
      runSection config ("aliases", validate_aliases) = .ok iAl ∧
      runSection config ("models", validate_models) = .ok iM ∧
      runSection config ("prompts", validate_prompts) = .ok iP ∧
      runSection config ("features", validate_features) = .ok iF ∧
      cross_validate config = .ok cr ∧
      r = validate_structure config ++ iA ++ iR ++ iL ++ iT ++ iS ++ iU ++
          iRe ++ iN ++ iSe ++ iD ++ iAl ++ iM ++ iP ++ iF ++ cr) ∧
    (∀ config₂ : Document,
      (∀ n, config.lookup n = config₂.lookup n) →
      forIssues (runSection config) sectionDefs =
        forIssues (runSection config₂) sectionDefs) := by
  constructor
  · obtain ⟨hc, _⟩ := validate_parsed_ok h
    unfold collectIssues at hc
    obtain ⟨st, rest, hst, hrest, hre⟩ := andIssues_ok_iff.mp hc
    injection hst with hst'
    subst hst'
    obtain ⟨sec, cr, hsec, hcr, hre2⟩ := andIssues_ok_iff.mp hrest
    subst hre2
    subst hre
    simp only [sectionDefs, forIssues] at hsec
    obtain ⟨i1, s1, h1, hs1, hr1⟩ := andIssues_ok_iff.mp hsec
    obtain ⟨i2, s2, h2, hs2, hr2⟩ := andIssues_ok_iff.mp hs1
    obtain ⟨i3, s3, h3, hs3, hr3⟩ := andIssues_ok_iff.mp hs2
    obtain ⟨i4, s4, h4, hs4, hr4⟩ := andIssues_ok_iff.mp hs3
    obtain ⟨i5, s5, h5, hs5, hr5⟩ := andIssues_ok_iff.mp hs4
    obtain ⟨i6, s6, h6, hs6, hr6⟩ := andIssues_ok_iff.mp hs5
    obtain ⟨i7, s7, h7, hs7, hr7⟩ := andIssues_ok_iff.mp hs6
    obtain ⟨i8, s8, h8, hs8, hr8⟩ := andIssues_ok_iff.mp hs7
    obtain ⟨i9, s9, h9, hs9, hr9⟩ := andIssues_ok_iff.mp hs8
    obtain ⟨i10, s10, h10, hs10, hr10⟩ := andIssues_ok_iff.mp hs9
    obtain ⟨i11, s11, h11, hs11, hr11⟩ := andIssues_ok_iff.mp hs10
    obtain ⟨i12, s12, h12, hs12, hr12⟩ := andIssues_ok_iff.mp hs11
    obtain ⟨i13, s13, h13, hs13, hr13⟩ := andIssues_ok_iff.mp hs12
    obtain ⟨i14, s14, h14, hs14, hr14⟩ := andIssues_ok_iff.mp hs13
    injection hs14 with hs14'
    subst hr1; subst hr2; subst hr3; subst hr4; subst hr5; subst hr6
    subst hr7; subst hr8; subst hr9; subst hr10; subst hr11; subst hr12
    subst hr13; subst hr14
    subst hs14'
    exact ⟨i1, i2, i3, i4, i5, i6, i7, i8, i9, i10, i11, i12, i13, i14, cr,
      h1, h2, h3, h4, h5, h6, h7, h8, h9, h10, h11, h12, h13, h14, hcr,
      by simp [List.append_assoc]⟩
  · intro config₂ hl
    refine forIssues_congr ?_
    intro p _
    unfold runSection
    rw [hl p.1]

theorem c8_issue_order_witness :
    ∃ iA iR iL iT iS iU iRe iN iSe iD iAl iM iP iF cr,
      runSection [] ("api", validate_api) = .ok iA ∧
      runSection [] ("repl", validate_repl) = .ok iR ∧
      runSection [] ("logging", validate_logging) = .ok iL ∧
      runSection [] ("tools", validate_tools) = .ok iT ∧
      runSection [] ("session", validate_session) = .ok iS ∧
      runSection [] ("ui", validate_ui) = .ok iU ∧
      runSection [] ("response", validate_response) = .ok iRe ∧
      runSection [] ("network", validate_network) = .ok iN ∧
      runSection [] ("security", validate_security) = .ok iSe ∧
      runSection [] ("debug", validate_debug) = .ok iD ∧
      runSection [] ("aliases", validate_aliases) = .ok iAl ∧
      runSection [] ("models", validate_models) = .ok iM ∧
      runSection [] ("prompts", validate_prompts) = .ok iP ∧
      runSection [] ("features", validate_features) = .ok iF ∧
      cross_validate [] = .ok cr ∧
      ([] : List ValidationIssue) = validate_structure [] ++ iA ++ iR ++ iL ++
        iT ++ iS ++ iU ++ iRe ++ iN ++ iSe ++ iD ++ iAl ++ iM ++ iP ++ iF ++ cr :=
  (c8_issue_order [] true [] rfl).1
